import Mathlib

/-!
Shallow embedding of the route-extraction core of the RoutePlotter repository
(`src/route_utils.ts`, plus the `Maybe`-based variant of the same module).

Numbers are modelled as rationals; the JavaScript value `NaN` (produced by
`parseFloat` on non-numeric text) is modelled as `none` in `Option ℚ`.
External platform builtins that the module calls — `JSON.parse` and the
floating-point trigonometric core of the haversine formula — are kept
abstract as fields of a `JsEnv` environment, since no verified claim depends
on their values; everything written in the repository itself is embedded
concretely.
-/

namespace RoutePlotter

/-! ## Models of JavaScript primitives -/

/-- Whitespace characters recognised by JavaScript `parseFloat` (the ASCII
subset; the inputs handled by this module contain no exotic Unicode space). -/
def isWsChar (c : Char) : Bool :=
  c == ' ' || c == '\t' || c == '\n' || c == '\r' || c == '\x0b' || c == '\x0c'

/-- Numeric value of a list of decimal digit characters. -/
def digitsVal (ds : List Char) : ℕ :=
  ds.foldl (fun a c => 10 * a + (c.toNat - 48)) 0

/-- Model of the JavaScript builtin `parseFloat`: skip leading whitespace,
optional sign, longest prefix of the form `digits [. digits] [e[±]digits]`
(at least one digit before or after the dot); trailing garbage is ignored.
`none` models the result `NaN`.  (`Infinity` literals are not modelled; no
input in this development contains them.) -/
def jsParseFloat (s : String) : Option ℚ :=
  let cs := s.data.dropWhile isWsChar
  let sgn : Bool × List Char :=
    match cs with
    | '-' :: t => (true, t)
    | '+' :: t => (false, t)
    | _ => (false, cs)
  let ip := sgn.2.takeWhile Char.isDigit
  let cs1 := sgn.2.dropWhile Char.isDigit
  let frac : List Char × List Char :=
    match cs1 with
    | '.' :: t => (t.takeWhile Char.isDigit, t.dropWhile Char.isDigit)
    | _ => ([], cs1)
  if ip.isEmpty && frac.1.isEmpty then none
  else
    let mant : ℚ := (digitsVal ip : ℚ) + (digitsVal frac.1 : ℚ) / ((10 : ℚ) ^ frac.1.length)
    let expo : ℤ :=
      match frac.2 with
      | e :: t =>
        if e == 'e' || e == 'E' then
          let esgn : Bool × List Char :=
            match t with
            | '-' :: u => (true, u)
            | '+' :: u => (false, u)
            | _ => (false, t)
          let eds := esgn.2.takeWhile Char.isDigit
          if eds.isEmpty then 0
          else if esgn.1 then -(digitsVal eds : ℤ) else (digitsVal eds : ℤ)
        else 0
      | [] => 0
    let v : ℚ := mant * (10 : ℚ) ^ expo
    some (if sgn.1 then -v else v)

/-- Model of JavaScript `Number.prototype.toFixed(2)` (read back as a number):
round to the nearest multiple of 1/100, ties toward positive infinity, as the
ECMAScript specification prescribes. -/
def toFixed2 (q : ℚ) : ℚ := ((q * 100 + 1 / 2).floor : ℚ) / 100

/-- JavaScript truthiness of a string-or-undefined value: `undefined` and the
empty string are falsy, every other string (including `"0"`) is truthy. -/
def jsFalsyField (o : Option String) : Bool :=
  match o with
  | none => true
  | some s => s == ""

/-- JavaScript truthiness of a number-or-NaN value: `NaN` (modelled `none`)
and `0` are falsy. -/
def jsFalsyNum (o : Option ℚ) : Bool :=
  match o with
  | none => true
  | some q => q == 0

/-! ## Data model (`types.ts`) -/

/-- One sampled or derived position (`NavigationPoint` in `types.ts`).
`timestamp` is the raw numeric-string identifier (or `null`); `latitude`,
`longitude` and `speed` are numbers where `none` models `NaN`/`null`. -/
structure NavigationPoint where
  timestamp : Option String
  latitude : Option ℚ
  longitude : Option ℚ
  speed : Option ℚ
deriving DecidableEq, Inhabited

/-- Untyped JSON values, the result type of the external `JSON.parse`. -/
inductive Json where
  | null : Json
  | bool (b : Bool) : Json
  | num (q : ℚ) : Json
  | str (s : String) : Json
  | arr (elems : List Json) : Json
  | obj (fields : List (String × Json)) : Json

/-- Route summary (`Summary` in `types.ts`); the trailing optional fields are
only present in the `Maybe`-based variant's type and are `none` for every
route this module builds itself. -/
structure Summary where
  lengthInMeters : ℚ
  travelTimeInSeconds : ℚ
  trafficDelayInSeconds : Option ℚ := none
  trafficLengthInMeters : Option ℚ := none
  departureTime : Option String := none
  arrivalTime : Option String := none

/-- One leg of a route; `summary` is `null`/absent on every leg this module
builds. -/
structure RouteLeg where
  points : List NavigationPoint
  summary : Option Summary := none

/-- Guidance object; instructions are untyped payloads taken verbatim from
the JSON format and empty for every other format. -/
structure Guidance where
  instructions : List Json

/-- A complete parsed route. -/
structure Route where
  legs : List RouteLeg
  summary : Summary
  guidance : Guidance

/-- An element of the route array returned by the dispatcher: the JSON
extractor passes its `routes` elements through untyped and unvalidated
(`fromJson`), while the other extractors build structured routes (`built`). -/
inductive RouteData where
  | fromJson (j : Json) : RouteData
  | built (r : Route) : RouteData

/-- Abstract environment for the two external platform builtins the module
calls: `jsonParse` models `JSON.parse` (`none` = the call throws), and
`haversine` models the floating-point trigonometric body of
`calculateDistanceBetweenPointsInMeters` after its definedness guard.  No
claim verified here depends on either value. -/
structure JsEnv where
  jsonParse : String → Option Json
  haversine : NavigationPoint → NavigationPoint → ℚ

/-- Result of one dispatcher invocation: the returned route array together
with the message passed to the `onSuccess` / `onFailure` callbacks (if any). -/
structure ExtractResult where
  routes : List RouteData
  success : Option String
  failure : Option String

/-- Fixed environment used for concrete evaluations: `JSON.parse` fails (all
concrete inputs below are not valid JSON), and the haversine core is the
constant 0 (every concrete input below needs it only on coincident points,
where the true haversine value is 0 as well). -/
def env0 : JsEnv := ⟨fun _ => none, fun _ _ => 0⟩

/-! ## Geometry utilities (`route_utils.ts` lines 264–335) -/

/-- `calculateDistanceBetweenPointsInMeters`: the definedness guard is
embedded (a falsy — missing, `NaN` or zero — latitude or longitude yields 0);
the haversine body itself is the abstract `env.haversine`. -/
def calculateDistanceBetweenPointsInMeters (env : JsEnv)
    (previous current : NavigationPoint) : ℚ :=
  if jsFalsyNum previous.latitude || jsFalsyNum previous.longitude ||
      jsFalsyNum current.latitude || jsFalsyNum current.longitude then 0
  else env.haversine previous current

/-- Sum of pairwise distances over consecutive points (the `for` loop of
`calculateDistanceInMeters`). -/
def pairwiseDistanceSum (env : JsEnv) : List NavigationPoint → ℚ
  | [] => 0
  | [_] => 0
  | a :: b :: rest =>
    calculateDistanceBetweenPointsInMeters env a b + pairwiseDistanceSum env (b :: rest)

/-- `calculateDistanceInMeters`: 0 for fewer than 2 points, else the pairwise
sum; the result is always passed through `toFixed(2)`. -/
def calculateDistanceInMeters (env : JsEnv) (points : List NavigationPoint) : ℚ :=
  toFixed2 (pairwiseDistanceSum env points)

/-- The numeric value of a point's timestamp: `parseFloat(p.timestamp)`,
where a `null` timestamp also yields `NaN` (`none`). -/
def jsTsVal (p : NavigationPoint) : Option ℚ :=
  match p.timestamp with
  | none => none
  | some s => jsParseFloat s

/-- The timestamp value at index `i` of the point list (`NaN` when the
timestamp does not parse). -/
def jsTsAt (points : List NavigationPoint) (i : ℕ) : Option ℚ :=
  match points[i]? with
  | none => none
  | some p => jsTsVal p

/-- `calculateTravelTimeInSeconds`: 0 for fewer than 2 points; otherwise the
first parseable of the first two timestamps minus, subtracted from the first
parseable of the last two (each falling back once on `NaN`, throwing — here
`Except.error` — when both of a pair are unparseable); result through
`toFixed(2)`. -/
def calculateTravelTimeInSeconds (points : List NavigationPoint) : Except String ℚ :=
  if points.length < 2 then .ok 0
  else
    match jsTsAt points 0 <|> jsTsAt points 1 with
    | none => .error ("Invalid timestamps in the first two locations")
    | some startTimestamp =>
      match jsTsAt points (points.length - 1) <|> jsTsAt points (points.length - 2) with
      | none => .error ("Invalid timestamps in the last two locations")
      | some endTimestamp => .ok (toFixed2 (endTimestamp - startTimestamp))

/-! ## Positioning-log ("TTP") extractor (`route_utils.ts` lines 171–262) -/

def TYPE_OUTGOING_LOCATION : String := "237"
def TYPE_INCOMING_LOCATION : String := "245"

def ttpHeader : String := "BEGIN:ApplicationVersion=TomTom Positioning"
def ttpSupportedVersion : String := "0.7"

/-- The point a fully-populated record line contributes (the `points.push`
literal of `parseTTPPoints`, source lines 253–258): reception timestamp
(field 0) as the timestamp, latitude from field 5, longitude from field 3,
speed from field 11 rounded to 2 decimals. -/
def ttpRecordPoint (line : String) : NavigationPoint :=
  { timestamp := some ((line.splitOn (",")).headD ("")),
    latitude := jsParseFloat (((line.splitOn (","))[5]?).getD ("")),
    longitude := jsParseFloat (((line.splitOn (","))[3]?).getD ("")),
    speed := (jsParseFloat (((line.splitOn (","))[11]?).getD (""))).map toFixed2 }

/-- The record loop body of `parseTTPPoints`: walk the lines carrying the
`seenTimestaps` set (modelled as a list).  Comment lines are skipped; a
record whose reception timestamp parses to 0 or was already seen is skipped;
a record of the wrong channel code is skipped without touching the seen-set;
a record missing longitude, latitude or speed marks its timestamp seen but
yields no point; otherwise the record's own point is emitted and the
timestamp marked seen. -/
def ttpGo (type : String) : List String → List String → List NavigationPoint
  | [], _ => []
  | line :: rest, seen =>
    if line.startsWith ("#") then ttpGo type rest seen
    else
      let parts := line.splitOn (",")
      let rts := parts.headD ("")
      if jsParseFloat rts = some 0 ∨ rts ∈ seen then ttpGo type rest seen
      else if parts[1]? ≠ some type then ttpGo type rest seen
      else if jsFalsyField parts[3]? || jsFalsyField parts[5]? || jsFalsyField parts[11]? then
        ttpGo type rest (rts :: seen)
      else
        ttpRecordPoint line :: ttpGo type rest (rts :: seen)

/-- `parseTTPPoints(lines, type)`: one channel pass with a fresh seen-set. -/
def parseTTPPoints (lines : List String) (type : String) : List NavigationPoint :=
  ttpGo type lines []

/-- The header check of `parseTTP` (lines 175–186): the first line must start
with the literal header; the version is `lines[0].slice(header.length + 1)` —
i.e. the remainder after the header *and one further (separator) character* —
and must equal the supported version. -/
def ttpHeaderCheck (line0 : String) : Except String String :=
  if line0.startsWith ttpHeader then
    let ttpVersion := line0.drop (ttpHeader.length + 1)
    if ttpVersion = ttpSupportedVersion then .ok ttpVersion
    else .error ("Unsupported TTP version: " ++ ttpVersion ++ ", expected " ++ ttpSupportedVersion)
  else .error ("Invalid TTP format")

/-- Channel selection of `parseTTP` (lines 189–209): an empty channel cedes
to the other; when both are non-empty the strictly longer one wins and a tie
goes to `incoming`; the emitted message names the channel used. -/
def ttpSelectChannel (incoming outgoing : List NavigationPoint) :
    List NavigationPoint × String :=
  if incoming.length = 0 then
    (outgoing, "No incoming locations found in TTP, using outgoing locations")
  else if outgoing.length = 0 then
    (incoming, "No outgoing locations found in TTP, using incoming locations")
  else if outgoing.length > incoming.length then
    (outgoing, "Using TTP outgoing locations")
  else (incoming, "Using TTP incoming locations")

/-- The single-leg route every non-JSON extractor builds: one leg holding
`pts`, a summary deriving `lengthInMeters` from the geometry utilities with
the given `travelTimeInSeconds`, and no guidance instructions. -/
def singleLegRoute (env : JsEnv) (pts : List NavigationPoint) (tt : ℚ) : Route :=
  { legs := [{ points := pts }],
    summary :=
      { lengthInMeters := calculateDistanceInMeters env pts,
        travelTimeInSeconds := tt },
    guidance := { instructions := [] } }

/-- `parseTTP`: header check, both channel passes, selection, then a
single-leg route with derived summary.  `Except.error` models a thrown
exception (caught by the dispatcher). -/
def parseTTP (env : JsEnv) (text : String) :
    Except String (List RouteData × Option String) :=
  let lines := text.splitOn ("\n")
  match ttpHeaderCheck (lines.headD ("")) with
  | .error e => .error e
  | .ok _ =>
    let incoming_points := parseTTPPoints lines TYPE_INCOMING_LOCATION
    let outgoing_points := parseTTPPoints lines TYPE_OUTGOING_LOCATION
    let sel := ttpSelectChannel incoming_points outgoing_points
    match calculateTravelTimeInSeconds sel.1 with
    | .error e => .error e
    | .ok tt => .ok ([RouteData.built (singleLegRoute env sel.1 tt)], some sel.2)

/-! ## JSON extractor (`route_utils.ts` lines 44–55) -/

def supportedVersion : String := "0.0.12"

/-- Property access `j.k` on a JSON value: only objects have own properties;
`none` models `undefined`.  (Access on `null` throws in JavaScript; the one
caller below reaches property access only after `null` has been excluded.) -/
def jsonGet (j : Json) (k : String) : Option Json :=
  match j with
  | .obj fields => fields.lookup k
  | _ => none

/-- `parseJSON`: parse (via the abstract `JSON.parse`), require
`formatVersion` to be exactly the supported version string (else throw),
then require a `routes` *array* — any array, the emptiness of `routes` is
not checked because an empty array is truthy in JavaScript — and return its
elements untyped and unchanged, with the success message. -/
def parseJSON (env : JsEnv) (text : String) :
    Except String (List RouteData × Option String) :=
  match env.jsonParse text with
  | none => .error ("Invalid JSON")
  | some j =>
    match j with
    | .null => .error ("TypeError: cannot read properties of null")
    | _ =>
      match jsonGet j ("formatVersion") with
      | some (.str v) =>
        if v = supportedVersion then
          match jsonGet j ("routes") with
          | some (.arr rs) =>
            .ok (rs.map RouteData.fromJson, some ("Using routes from JSON response"))
          | _ => .error ("No routes found in JSON")
        else .error ("Unsupported version: " ++ v)
      | _ => .error ("Unsupported version: <non-string>")

/-! ## Regular-expression machinery

The module's free-text extractors use a handful of `RegExp` literals built
from literal runs, captures `([\d.-]+)`, separators `[,\s]+` and optional
whitespace `\s?`.  They are modelled by a token-list pattern matched
greedily; in every pattern used here a greedy character-class run is
followed by a character outside the class, so greedy matching without
backtracking coincides with the JavaScript engine's semantics (the single
`\s?` token does carry its one-step backtrack). -/

inductive PatTok where
  | lit (s : String) : PatTok
  | num : PatTok
  | seps : PatTok
  | optWs : PatTok

/-- Characters of the class `[\d.-]`. -/
def isNumChar (c : Char) : Bool := c.isDigit || c == '.' || c == '-'

/-- Characters of the class `[,\s]`. -/
def isSepChar (c : Char) : Bool := c == ',' || isWsChar c

/-- Strip an expected literal character run. -/
def dropLit : List Char → List Char → Option (List Char)
  | [], s => some s
  | _ :: _, [] => none
  | c :: cs, d :: ds => if c == d then dropLit cs ds else none

/-- Match a token list at the head of the input, returning the captures and
the rest of the input. -/
def matchToks : List PatTok → List Char → Option (List String × List Char)
  | [], s => some ([], s)
  | .lit l :: ts, s =>
    match dropLit l.data s with
    | some rest => matchToks ts rest
    | none => none
  | .num :: ts, s =>
    let run := s.takeWhile isNumChar
    if run.isEmpty then none
    else
      match matchToks ts (s.dropWhile isNumChar) with
      | some (caps, fin) => some (run.asString :: caps, fin)
      | none => none
  | .seps :: ts, s =>
    if (s.takeWhile isSepChar).isEmpty then none
    else matchToks ts (s.dropWhile isSepChar)
  | .optWs :: ts, s =>
    match s with
    | [] => matchToks ts []
    | c :: rest =>
      if isWsChar c then
        match matchToks ts rest with
        | some r => some r
        | none => matchToks ts (c :: rest)
      else matchToks ts (c :: rest)

/-- All non-overlapping matches in textual order (the `while exec` loop of a
`g`-flagged regex on a fresh `RegExp` object): try to match at each position,
resuming after the end of each match.  Fuel is the remaining length; every
pattern used here consumes at least one character per match. -/
def scanAll (pat : List PatTok) : ℕ → List Char → List (String × String)
  | 0, _ => []
  | _ + 1, [] => []
  | fuel + 1, c :: rest =>
    match matchToks pat (c :: rest) with
    | some ([c1, c2], fin) => (c1, c2) :: scanAll pat fuel fin
    | _ => scanAll pat fuel rest

/-- All matches of a pattern in a string. -/
def execAll (pat : List PatTok) (text : String) : List (String × String) :=
  scanAll pat (text.length + 1) text.data

/-! ## Free-text coordinate extractor (`route_utils.ts` lines 121–169) -/

/-- `/GeoPoint\(latitude = ([\d.-]+), longitude = ([\d.-]+)\)/g` -/
def geoNamedPat : List PatTok :=
  [.lit ("GeoPoint(latitude = "), .num, .lit (", longitude = "), .num, .lit (")")]

/-- `/GeoPoint\(([\d.-]+), ([\d.-]+)\)/g` -/
def geoPosPat : List PatTok :=
  [.lit ("GeoPoint("), .num, .lit (", "), .num, .lit (")")]

/-- Turn one regex match into a point: both captures must parse to truthy
(non-`NaN`, non-zero) numbers, else the match is dropped. -/
def toPastedPoint (m : String × String) : Option NavigationPoint :=
  match jsParseFloat m.1, jsParseFloat m.2 with
  | some la, some lo =>
    if la ≠ 0 ∧ lo ≠ 0 then
      some { timestamp := none, latitude := some la, longitude := some lo, speed := none }
    else none
  | _, _ => none

/-- `parsePastedCoordinates`: run both patterns over the whole text (their
match lists are concatenated — the source loops over both regexes without a
break), keep truthy pairs, throw if none, else build a single-leg route with
null timestamps and `travelTimeInSeconds` 0. -/
def parsePastedCoordinates (env : JsEnv) (text : String) :
    Except String (List RouteData × Option String) :=
  let navigationPoints :=
    (execAll geoNamedPat text ++ execAll geoPosPat text).filterMap toPastedPoint
  if navigationPoints.isEmpty then .error ("No valid GeoPoints found in pasted text")
  else
    .ok ([RouteData.built (singleLegRoute env navigationPoints 0)],
      some ("Using pasted coordinates"))

/-! ## Delimited-telemetry (CSV) extractor (`route_utils.ts` lines 65–115) -/

/-- The four fields of a parsed delimited row that `parseCSVPoints` reads
(projection of the `GnssLocation` interface); `none` models a column absent
from the row (`undefined`). -/
structure GnssLocation where
  lat : Option String
  lon : Option String
  source_timestamp : Option String
  speed : Option String
deriving DecidableEq

/-- Model of the external Papa Parse library in header mode
(`Papa.parse(text, { header: true })`) on plain comma-delimited input
without quoting: the first line names the columns and each further line
becomes a record keyed by those names, missing trailing fields being
`undefined`. -/
def papaParse (text : String) : List GnssLocation :=
  let lines := text.splitOn ("\n")
  let headerFields := (lines.headD ("")).splitOn (",")
  lines.tail.map fun row =>
    let pairs := headerFields.zip (row.splitOn (","))
    { lat := pairs.lookup ("lat"),
      lon := pairs.lookup ("lon"),
      source_timestamp := pairs.lookup ("source_timestamp"),
      speed := pairs.lookup ("speed") }

/-- The row-to-point map body of `parseCSVPoints`.  The filter has already
required `lat`, `lon` and `source_timestamp` to be defined, but *not*
`speed`: `location.speed.toString()` on an undefined `speed` throws a
`TypeError` (modelled as `Except.error`). -/
def csvPointOf (location : GnssLocation) : Except String NavigationPoint :=
  match location.speed with
  | none => .error ("TypeError: cannot read properties of undefined")
  | some sp =>
    .ok { timestamp := location.source_timestamp,
          latitude := jsParseFloat (location.lat.getD ("")),
          longitude := jsParseFloat (location.lon.getD ("")),
          speed := (jsParseFloat sp).map toFixed2 }

/-- `parseCSVPoints`: keep rows with defined `lat`, `lon` and
`source_timestamp`, then map them to points (possibly throwing on `speed`). -/
def parseCSVPoints (locations : List GnssLocation) : Except String (List NavigationPoint) :=
  (locations.filter fun l =>
    l.lat.isSome && l.lon.isSome && l.source_timestamp.isSome).mapM csvPointOf

/-- `parseCSV`: header-aware parse, map to points; **zero points yields the
empty route list by a normal return** (no exception, no success callback);
otherwise build a single-leg route with derived summary. -/
def parseCSV (env : JsEnv) (text : String) :
    Except String (List RouteData × Option String) :=
  match parseCSVPoints (papaParse text) with
  | .error e => .error e
  | .ok points =>
    if points.isEmpty then .ok ([], none)
    else
      match calculateTravelTimeInSeconds points with
      | .error e => .error e
      | .ok tt =>
        .ok ([RouteData.built (singleLegRoute env points tt)],
          some ("Using CSV locations"))

/-! ## Format dispatcher (`route_utils.ts` lines 14–42)

The nested `try`/`catch` chain: JSON, then TTP, then **pasted coordinates,
then CSV** (free text before delimited telemetry).  An extractor's normal
return is final; only a thrown error falls through to the next extractor;
when the last extractor throws, `onFailure` receives the final error. -/

def extractRoutes (env : JsEnv) (text : String) : ExtractResult :=
  if text.length = 0 then { routes := [], success := none, failure := none }
  else
    match parseJSON env text with
    | .ok (r, m) => { routes := r, success := m, failure := none }
    | .error _ =>
      match parseTTP env text with
      | .ok (r, m) => { routes := r, success := m, failure := none }
      | .error _ =>
        match parsePastedCoordinates env text with
        | .ok (r, m) => { routes := r, success := m, failure := none }
        | .error _ =>
          match parseCSV env text with
          | .ok (r, m) => { routes := r, success := m, failure := none }
          | .error e =>
            { routes := [], success := none,
              failure := some ("Error parsing file: " ++ e) }

/-- Fold a list of extractors in order, returning on the first normal return
and carrying the last thrown error into the terminal failure message. -/
def chainAux (text : String) :
    String → List (String → Except String (List RouteData × Option String)) → ExtractResult
  | e, [] => { routes := [], success := none, failure := some ("Error parsing file: " ++ e) }
  | _, p :: ps =>
    match p text with
    | .ok (r, m) => { routes := r, success := m, failure := none }
    | .error e => chainAux text e ps

/-- The dispatcher *as claim C1 states it* — written from the claim's words,
for comparison with the embedded `extractRoutes`: JSON, then positioning
log, then **delimited telemetry, then free text**. -/
def extractRoutesClaimedOrder (env : JsEnv) (text : String) : ExtractResult :=
  if text.length = 0 then { routes := [], success := none, failure := none }
  else chainAux text ("")
    [parseJSON env, parseTTP env, parseCSV env, parsePastedCoordinates env]

/-! ## Post-extraction projectors (`route_utils.ts` lines 337–381) -/

/-- `extractPoints`: concatenate the legs' points, dropping the first point
of every leg after the first (the shared boundary with the previous leg). -/
def extractPoints (route : Route) : List NavigationPoint :=
  match route.legs with
  | [] => []
  | leg :: rest => leg.points ++ rest.flatMap fun l => l.points.tail

/-! ## The `Maybe`-based variant of the module (`part_003` of the sources)

The repository also contains a rewrite of the same module in which every
parsing operation returns a `Maybe` (success/failure) value instead of using
callbacks, and the dispatcher chain is JSON → TTP → pasted coordinates (no
CSV extractor).  Only the pieces that differ are embedded; the record-level
TTP parsing is byte-for-byte the same code and is shared. -/

/-- The `Maybe<ApplicationError, Routes>` result of the variant module. -/
inductive MuMaybe where
  | success (routes : List RouteData) (message : String) : MuMaybe
  | failure (message : String) : MuMaybe

/-- JavaScript truthiness of a parsed JSON value (the variant's
`if (!json) throw` check). -/
def jsFalsyJson (j : Json) : Bool :=
  match j with
  | .null => true
  | .bool b => !b
  | .num q => q == 0
  | .str s => s == ""
  | _ => false

/-- The variant's `parseJSON`: a falsy parse result throws, a wrong
`formatVersion` is *returned* as a `Maybe` failure (so the dispatcher
returns it without falling through), and a `routes` array (empty included)
yields success with message `"JSON"`. -/
def mu_parseJSON (env : JsEnv) (text : String) : Except String MuMaybe :=
  match env.jsonParse text with
  | none => .error ("Invalid JSON")
  | some j =>
    if jsFalsyJson j then .error ("Invalid JSON")
    else
      match jsonGet j ("formatVersion") with
      | some (.str v) =>
        if v = supportedVersion then
          match jsonGet j ("routes") with
          | some (.arr rs) => .ok (.success (rs.map RouteData.fromJson) ("JSON"))
          | _ => .error ("No routes found in JSON")
        else .ok (.failure ("Unsupported version: " ++ v))
      | _ => .ok (.failure ("Unsupported version: <non-string>"))

/-- The variant's channel-selection messages. -/
def mu_ttpSelectChannel (incoming outgoing : List NavigationPoint) :
    List NavigationPoint × String :=
  if incoming.length = 0 then (outgoing, "TTP: outgoing locations")
  else if outgoing.length = 0 then (incoming, "TTP: incoming locations")
  else if outgoing.length > incoming.length then (outgoing, "TTP: outgoing locations")
  else (incoming, "TTP: incoming locations")

/-- The variant's `parseTTP`: same header and record parsing; an unsupported
version is *returned* as a `Maybe` failure rather than thrown. -/
def mu_parseTTP (env : JsEnv) (text : String) : Except String MuMaybe :=
  let lines := text.splitOn ("\n")
  if (lines.headD ("")).startsWith ttpHeader then
    let ttpVersion := (lines.headD ("")).drop (ttpHeader.length + 1)
    if ttpVersion = ttpSupportedVersion then
      let incoming_points := parseTTPPoints lines TYPE_INCOMING_LOCATION
      let outgoing_points := parseTTPPoints lines TYPE_OUTGOING_LOCATION
      let sel := mu_ttpSelectChannel incoming_points outgoing_points
      match calculateTravelTimeInSeconds sel.1 with
      | .error e => .error e
      | .ok tt =>
        .ok (.success [RouteData.built (singleLegRoute env sel.1 tt)] sel.2)
    else
      .ok (.failure ("Unsupported TTP version: " ++ ttpVersion ++
        ", expected " ++ ttpSupportedVersion))
  else .error ("Invalid TTP format")

/-- `/GeoPoint\(latitude\s?=\s?([\d.-]+)[,\s]+longitude\s?=\s?([\d.-]+)\)/g` -/
def muNamedPat : List PatTok :=
  [.lit ("GeoPoint(latitude"), .optWs, .lit ("="), .optWs, .num, .seps,
   .lit ("longitude"), .optWs, .lit ("="), .optWs, .num, .lit (")")]

/-- `/GeoPoint\(([\d.-]+)[,\s]+([\d.-]+)\)/g` -/
def muPosPat : List PatTok :=
  [.lit ("GeoPoint("), .num, .seps, .num, .lit (")")]

/-- `/latitude\s?=\s?([\d.-]+)[,\s]+longitude\s?=\s?([\d.-]+)/g` -/
def muRawNamedPat : List PatTok :=
  [.lit ("latitude"), .optWs, .lit ("="), .optWs, .num, .seps,
   .lit ("longitude"), .optWs, .lit ("="), .optWs, .num]

/-- `/([\d.-]+)[,\s]+([\d.-]+)/g` -/
def muRawPat : List PatTok :=
  [.num, .seps, .num]

/-- The variant's `findMatches` loop body: take the patterns in priority
order and stop at the first one contributing at least one *valid* point. -/
def mu_findMatchesGo (text : String) : List (List PatTok) → List NavigationPoint
  | [] => []
  | p :: ps =>
    let r := (execAll p text).filterMap toPastedPoint
    if r.isEmpty then mu_findMatchesGo text ps else r

/-- The variant's `findMatches`: four patterns in strict priority order. -/
def mu_findMatches (text : String) : List NavigationPoint :=
  mu_findMatchesGo text [muNamedPat, muPosPat, muRawNamedPat, muRawPat]

/-- The variant's `parsePastedCoordinates`. -/
def mu_parsePastedCoordinates (env : JsEnv) (text : String) : Except String MuMaybe :=
  let points := mu_findMatches text
  if points.isEmpty then .error ("No valid GeoPoints found in pasted text")
  else
    .ok (.success [RouteData.built (singleLegRoute env points 0)] ("Pasted points"))

/-- The variant's dispatcher `extractRoutes`: empty input returns the
terminal failure `"Empty file"` before any extractor runs; otherwise JSON,
TTP and pasted coordinates are tried in order, a thrown error falling
through and any *returned* `Maybe` (success or failure) being final. -/
def mu_extractRoutes (env : JsEnv) (text : String) : MuMaybe :=
  if text.length = 0 then .failure ("Empty file")
  else
    match mu_parseJSON env text with
    | .ok r => r
    | .error _ =>
      match mu_parseTTP env text with
      | .ok r => r
      | .error _ =>
        match mu_parsePastedCoordinates env text with
        | .ok r => r
        | .error _ => .failure ("Error parsing text")

/-! ## Helper projections used by the theorems -/

/-- The points of a route's first leg. -/
def firstLegPoints (r : Route) : List NavigationPoint :=
  (r.legs.headD { points := [] }).points

/-- The first leg's points of the first (structured) route of a dispatcher
route list; `[]` when the list does not start with a structured route. -/
def pointsOfFirst (rd : List RouteData) : List NavigationPoint :=
  match rd with
  | RouteData.built r :: _ => firstLegPoints r
  | _ => []

/-- The `travelTimeInSeconds` of the first (structured) route of a
successful extractor result. -/
def summaryTravelOfOk (r : Except String (List RouteData × Option String)) : Option ℚ :=
  match r with
  | .ok (RouteData.built route :: _, _) => some route.summary.travelTimeInSeconds
  | _ => none

/-- Two successive invocations of the dispatcher on the same text. -/
def runTwice (env : JsEnv) (text : String) : ExtractResult × ExtractResult :=
  (extractRoutes env text, extractRoutes env text)

/-! ## Claim C10 -/

/-- Claim C10: for every input text, two invocations of `extractRoutes` on
the same text produce identical results.  The embedding is a pure function
of the text (and the fixed builtin environment): it threads no state between
invocations, mirroring the source, whose regular-expression scanners and
collections are constructed afresh inside each call. -/
theorem extractRoutes_deterministic (env : JsEnv) (text : String) :
    (runTwice env text).1 = (runTwice env text).2 := rfl

/-! ## Claim C7 -/

/-- Claim C7 (amended): for the empty input string the dispatcher returns
immediately, invoking no extractor (the result is the same for *every*
builtin environment); the `Maybe`-based variant returns the terminal failure
`"Empty file"`, while the callback-based dispatcher returns the empty route
list without emitting any failure message. -/
theorem extractRoutes_empty_input (env : JsEnv) :
    extractRoutes env ("") = { routes := [], success := none, failure := none } ∧
    mu_extractRoutes env ("") = .failure ("Empty file") :=
  ⟨rfl, rfl⟩

/-- Counterexample to claim C7 as stated: on empty input the (callback-based)
dispatcher of `route_utils.ts` does *not* return a terminal failure — no
failure message is emitted at all; it merely returns the empty route list. -/
theorem extractRoutes_empty_no_failure :
    (extractRoutes env0 ("")).failure = none ∧
    (extractRoutes env0 ("")).routes = [] ∧
    (extractRoutes env0 ("")).success = none :=
  ⟨rfl, rfl, rfl⟩

/-! ## Claim C3 -/

/-- Claim C3 (amended): the positioning-log extractor passes its header
check exactly when the first line starts with the literal header prefix and
the remainder of the line after the prefix *and one further (separator)
character* — `lines[0].slice(header.length + 1)` — equals the supported
version string `"0.7"`. -/
theorem ttpHeaderCheck_iff (line0 : String) :
    ttpHeaderCheck line0 = .ok ttpSupportedVersion ↔
      (line0.startsWith ttpHeader = true ∧
        line0.drop (ttpHeader.length + 1) = ttpSupportedVersion) := by
  unfold ttpHeaderCheck
  by_cases h1 : line0.startsWith ttpHeader
  · by_cases h2 : line0.drop (ttpHeader.length + 1) = ttpSupportedVersion <;>
      simp [h1, h2]
  · simp [h1]

set_option maxRecDepth 8192 in
/-- Counterexample to claim C3 as stated: on the canonical valid header line
`ttpHeader ++ " 0.7"` the check succeeds although the remainder after the
prefix is `" 0.7"`, not the version string; conversely on
`ttpHeader ++ "0.7"` the remainder after the prefix *is* exactly `"0.7"` yet
the check fails (the slice starts one character past the prefix). -/
theorem ttpHeaderCheck_not_remainder_after_prefix :
    ttpHeaderCheck (ttpHeader ++ (" 0.7")) = .ok ("0.7") ∧
    (ttpHeader ++ (" 0.7")).drop ttpHeader.length = (" 0.7") ∧
    (" 0.7" : String) ≠ ("0.7") ∧
    (ttpHeader ++ ("0.7")).drop ttpHeader.length = ("0.7") ∧
    ttpHeaderCheck (ttpHeader ++ ("0.7")) =
      .error ("Unsupported TTP version: .7, expected 0.7") := by
  refine ⟨by with_unfolding_all rfl, by with_unfolding_all rfl, by decide,
    by with_unfolding_all rfl, by with_unfolding_all rfl⟩

/-! ## Claim C1 -/

/-- Claim C1 (amended): the dispatcher tries the extractors in the fixed
order JSON → positioning-log → **free-text → delimited-telemetry** (free
text *before* delimited telemetry), returning immediately on the first
extractor that returns normally, with that extractor's routes and message;
if all four throw, the terminal failure carries the last error. -/
theorem extractRoutes_order (env : JsEnv) (text : String) :
    extractRoutes env text =
      (if text.length = 0 then { routes := [], success := none, failure := none }
       else chainAux text ("")
         [parseJSON env, parseTTP env, parsePastedCoordinates env, parseCSV env]) := by
  unfold extractRoutes
  by_cases h : text.length = 0
  · simp [h]
  · simp only [h, if_false]
    cases hj : parseJSON env text with
    | ok r => cases r; simp [chainAux, hj]
    | error e1 =>
      cases ht : parseTTP env text with
      | ok r => cases r; simp [chainAux, hj, ht]
      | error e2 =>
        cases hp : parsePastedCoordinates env text with
        | ok r => cases r; simp [chainAux, hj, ht, hp]
        | error e3 =>
          cases hc : parseCSV env text with
          | ok r => cases r; simp [chainAux, hj, ht, hp, hc]
          | error e4 => simp [chainAux, hj, ht, hp, hc]

set_option maxRecDepth 65536 in
/-- Counterexample to claim C1 as stated: on an input that both the
free-text and the delimited-telemetry extractor accept, the dispatcher
returns the free-text extractor's result, while a dispatcher following the
claim's order (delimited telemetry before free text) would return the CSV
extractor's result — the two differ. -/
theorem extractRoutes_order_counterexample :
    (extractRoutes env0
        ("GeoPoint(1, 2),lat,lon,source_timestamp,speed\n0,3,4,5,6,7")).success =
      some ("Using pasted coordinates") ∧
    (extractRoutesClaimedOrder env0
        ("GeoPoint(1, 2),lat,lon,source_timestamp,speed\n0,3,4,5,6,7")).success =
      some ("Using CSV locations") ∧
    (some ("Using pasted coordinates") : Option String) ≠ some ("Using CSV locations") := by
  refine ⟨by with_unfolding_all rfl, by with_unfolding_all rfl, by decide⟩

/-! ## Claim C2 -/

/-- Claim C2 (amended): for every input text that parses as valid JSON whose
`formatVersion` equals the supported version `"0.0.12"` and whose `routes`
field is an array — *possibly empty*: the extractor checks the field's
truthiness and an empty array is truthy in JavaScript — the dispatcher
returns exactly that routes array, element for element unchanged and
untyped, together with the success outcome. -/
theorem extractRoutes_json_passthrough (env : JsEnv) (text : String) (j : Json)
    (rs : List Json)
    (hlen : text.length ≠ 0)
    (hparse : env.jsonParse text = some j)
    (hver : jsonGet j ("formatVersion") = some (Json.str supportedVersion))
    (hroutes : jsonGet j ("routes") = some (Json.arr rs)) :
    extractRoutes env text =
      { routes := rs.map RouteData.fromJson,
        success := some ("Using routes from JSON response"), failure := none } := by
  unfold extractRoutes
  rw [if_neg hlen]
  unfold parseJSON
  rw [hparse]
  cases j <;> simp_all [jsonGet]

/-- JSON value of the parse of `{"formatVersion":"0.0.12","routes":[]}`. -/
def jsonEmptyRoutesVal : Json :=
  Json.obj [(("formatVersion"), Json.str ("0.0.12")), (("routes"), Json.arr [])]

/-- The text `{"formatVersion":"0.0.12","routes":[]}`. -/
def jsonEmptyRoutesText : String :=
  "\x7b\"formatVersion\":\"0.0.12\",\"routes\":[]\x7d"

/-- Environment in which `JSON.parse` behaves as the real builtin does on
`jsonEmptyRoutesText` (it parses to `jsonEmptyRoutesVal`). -/
def envEmptyRoutes : JsEnv :=
  ⟨fun t => if t = jsonEmptyRoutesText then some jsonEmptyRoutesVal else none,
   fun _ _ => 0⟩

/-- Counterexample to claim C2 as stated: the JSON extractor does *not*
require a non-empty routes array — on input with `routes: []` (an empty
array is truthy in JavaScript) it succeeds and the dispatcher returns the
empty route array with a success outcome. -/
theorem parseJSON_accepts_empty_routes :
    jsonGet jsonEmptyRoutesVal ("routes") = some (Json.arr []) ∧
    parseJSON envEmptyRoutes jsonEmptyRoutesText =
      .ok ([], some ("Using routes from JSON response")) ∧
    extractRoutes envEmptyRoutes jsonEmptyRoutesText =
      { routes := [], success := some ("Using routes from JSON response"),
        failure := none } := by
  refine ⟨by with_unfolding_all rfl, by with_unfolding_all rfl, by with_unfolding_all rfl⟩

/-- JSON value of the parse of `{"formatVersion":"0.0.12","routes":[{}]}`. -/
def jsonOneRouteVal : Json :=
  Json.obj [(("formatVersion"), Json.str ("0.0.12")),
            (("routes"), Json.arr [Json.obj []])]

/-- The text `{"formatVersion":"0.0.12","routes":[{}]}`. -/
def jsonOneRouteText : String :=
  "\x7b\"formatVersion\":\"0.0.12\",\"routes\":[\x7b\x7d]\x7d"

/-- Environment in which `JSON.parse` behaves as the real builtin does on
`jsonOneRouteText`. -/
def envOneRoute : JsEnv :=
  ⟨fun t => if t = jsonOneRouteText then some jsonOneRouteVal else none,
   fun _ _ => 0⟩

/-- Witness for `extractRoutes_json_passthrough` at a concrete input. -/
theorem extractRoutes_json_passthrough_witness :
    jsonOneRouteText.length ≠ 0 ∧
    envOneRoute.jsonParse jsonOneRouteText = some jsonOneRouteVal ∧
    jsonGet jsonOneRouteVal ("formatVersion") = some (Json.str supportedVersion) ∧
    jsonGet jsonOneRouteVal ("routes") = some (Json.arr [Json.obj []]) ∧
    extractRoutes envOneRoute jsonOneRouteText =
      { routes := [RouteData.fromJson (Json.obj [])],
        success := some ("Using routes from JSON response"), failure := none } :=
  ⟨by decide, by with_unfolding_all rfl, by with_unfolding_all rfl,
   by with_unfolding_all rfl,
   extractRoutes_json_passthrough envOneRoute jsonOneRouteText jsonOneRouteVal
     [Json.obj []] (by decide) (by with_unfolding_all rfl)
     (by with_unfolding_all rfl) (by with_unfolding_all rfl)⟩

/-! ## Claim C6 -/

/-- Claim C6 (amended): for every delimited-telemetry input that parses
under header-aware parsing but yields zero usable points (every row missing
latitude, longitude or the timestamp field), the extractor yields no route
and no success message — but this outcome is a *normal return* of the empty
route list, not a thrown format mismatch: the dispatcher therefore returns
it as a final result (it does not fall through — the CSV extractor is in any
case the last in the chain) and emits no failure either. -/
theorem parseCSV_zero_points (env : JsEnv) (text : String)
    (h : (papaParse text).all
      (fun l => l.lat.isNone || l.lon.isNone || l.source_timestamp.isNone) = true) :
    parseCSV env text = .ok ([], none) := by
  have hfilter : (papaParse text).filter
      (fun l => l.lat.isSome && l.lon.isSome && l.source_timestamp.isSome) = [] := by
    rw [List.filter_eq_nil_iff]
    intro a ha
    have := List.all_eq_true.mp h a ha
    rcases a with ⟨la, lo, ts, sp⟩
    cases la <;> cases lo <;> cases ts <;> simp_all
  unfold parseCSV parseCSVPoints
  rw [hfilter]
  rfl

/-- A delimited input whose single row is missing `source_timestamp` and
`speed`. -/
def csvNoUsableText : String := "lat,lon,source_timestamp,speed\n1,2"

set_option maxRecDepth 65536 in
/-- Counterexample to claim C6 as stated: on a header-parsed input with zero
usable points the extractor returns `.ok` — the *normal-return* channel, not
the thrown-error channel that makes the dispatcher fall through — and the
dispatcher consequently finishes with no routes, no success and no failure
message instead of treating the input as a format mismatch. -/
theorem parseCSV_zero_points_no_fallthrough :
    papaParse csvNoUsableText =
      [{ lat := some ("1"), lon := some ("2"),
         source_timestamp := none, speed := none }] ∧
    parseCSV env0 csvNoUsableText = .ok ([], none) ∧
    extractRoutes env0 csvNoUsableText =
      { routes := [], success := none, failure := none } := by
  refine ⟨by with_unfolding_all rfl, by with_unfolding_all rfl, by with_unfolding_all rfl⟩

set_option maxRecDepth 65536 in
/-- Witness for `parseCSV_zero_points` at a concrete input. -/
theorem parseCSV_zero_points_witness :
    (papaParse csvNoUsableText).all
      (fun l => l.lat.isNone || l.lon.isNone || l.source_timestamp.isNone) = true ∧
    parseCSV env0 csvNoUsableText = .ok ([], none) :=
  ⟨by with_unfolding_all rfl,
   parseCSV_zero_points env0 csvNoUsableText (by with_unfolding_all rfl)⟩

/-! ## Claim C9 -/

/-- Claim C9: for every two-leg route whose second leg's first point equals
the first leg's last point (the shared point occurring once per leg), the
point-flattening projector returns the first leg's points followed by the
second leg's points with its first point dropped — `len(leg1)+len(leg2)-1`
points in total, the shared boundary point appearing exactly once. -/
theorem extractPoints_two_leg (l1 l2 : List NavigationPoint) (s : Summary)
    (b : NavigationPoint)
    (_hlast : l1.getLast? = some b) (hhead : l2.head? = some b)
    (hc1 : l1.count b = 1) (hc2 : l2.count b = 1) :
    extractPoints { legs := [{ points := l1 }, { points := l2 }],
                    summary := s,
                    guidance := { instructions := [] } } = l1 ++ l2.tail ∧
    (l1 ++ l2.tail).length = l1.length + l2.length - 1 ∧
    (l1 ++ l2.tail).count b = 1 := by
  obtain ⟨t, ht⟩ : ∃ t, l2 = b :: t := by
    cases l2 with
    | nil => simp at hhead
    | cons x xs =>
      refine ⟨xs, ?_⟩
      simp only [List.head?_cons, Option.some.injEq] at hhead
      rw [hhead]
  refine ⟨by simp [extractPoints], ?_, ?_⟩
  · subst ht
    simp only [List.length_append, List.tail_cons, List.length_cons]
    omega
  · subst ht
    rw [List.count_append]
    have h2 : t.count b = 0 := by
      have := hc2
      rw [List.count_cons_self] at this
      omega
    simp [h2, hc1]

/-- Three pairwise distinct concrete points. -/
def wpA : NavigationPoint := { timestamp := none, latitude := some 1, longitude := some 1, speed := none }

/-- Second concrete point. -/
def wpB : NavigationPoint := { timestamp := none, latitude := some 2, longitude := some 2, speed := none }

/-- Third concrete point. -/
def wpC : NavigationPoint := { timestamp := none, latitude := some 3, longitude := some 3, speed := none }

/-- Witness for `extractPoints_two_leg` at a concrete two-leg route sharing
the boundary point `wpB`. -/
theorem extractPoints_two_leg_witness :
    ([wpA, wpB].getLast? = some wpB) ∧
    ([wpB, wpC].head? = some wpB) ∧
    ([wpA, wpB].count wpB = 1) ∧
    ([wpB, wpC].count wpB = 1) ∧
    (extractPoints { legs := [{ points := [wpA, wpB] }, { points := [wpB, wpC] }],
                     summary := { lengthInMeters := 0, travelTimeInSeconds := 0 },
                     guidance := { instructions := [] } } = [wpA, wpB] ++ [wpB, wpC].tail ∧
      ([wpA, wpB] ++ [wpB, wpC].tail).length = [wpA, wpB].length + [wpB, wpC].length - 1 ∧
      ([wpA, wpB] ++ [wpB, wpC].tail).count wpB = 1) :=
  ⟨by with_unfolding_all rfl, by with_unfolding_all rfl, by with_unfolding_all rfl,
   by with_unfolding_all rfl,
   extractPoints_two_leg [wpA, wpB] [wpB, wpC]
     { lengthInMeters := 0, travelTimeInSeconds := 0 } wpB
     (by with_unfolding_all rfl) (by with_unfolding_all rfl)
     (by with_unfolding_all rfl) (by with_unfolding_all rfl)⟩

/-! ## Claim C4 -/

/-- Inversion of a successful `parseTTP` run: the returned list is one built
route over the selected channel's points, the summary's travel time is the
(successful) `calculateTravelTimeInSeconds` of those points, and the message
is the selection message. -/
theorem parseTTP_ok_shape (env : JsEnv) (text : String) (routes : List RouteData)
    (msg : Option String) (hok : parseTTP env text = .ok (routes, msg)) :
    ∃ tt,
      calculateTravelTimeInSeconds
        (ttpSelectChannel
          (parseTTPPoints (text.splitOn ("\n")) TYPE_INCOMING_LOCATION)
          (parseTTPPoints (text.splitOn ("\n")) TYPE_OUTGOING_LOCATION)).1 = .ok tt ∧
      routes = [RouteData.built (singleLegRoute env
        (ttpSelectChannel
          (parseTTPPoints (text.splitOn ("\n")) TYPE_INCOMING_LOCATION)
          (parseTTPPoints (text.splitOn ("\n")) TYPE_OUTGOING_LOCATION)).1 tt)] ∧
      msg = some (ttpSelectChannel
        (parseTTPPoints (text.splitOn ("\n")) TYPE_INCOMING_LOCATION)
        (parseTTPPoints (text.splitOn ("\n")) TYPE_OUTGOING_LOCATION)).2 := by
  unfold parseTTP at hok
  dsimp only at hok
  split at hok
  · exact absurd hok (by simp)
  · split at hok
    · exact absurd hok (by simp)
    · rename_i tt hcalc
      refine ⟨tt, hcalc, ?_, ?_⟩ <;> cases hok <;> rfl

/-- Claim C4: for every positioning-log input in which both channels yield
at least one point, a successful extraction selects the channel with
strictly more points — the incoming channel when the counts are equal — and
the emitted success message names the channel used. -/
theorem parseTTP_channel_priority (env : JsEnv) (text : String)
    (routes : List RouteData) (msg : Option String)
    (hinc : parseTTPPoints (text.splitOn ("\n")) TYPE_INCOMING_LOCATION ≠ [])
    (hout : parseTTPPoints (text.splitOn ("\n")) TYPE_OUTGOING_LOCATION ≠ [])
    (hok : parseTTP env text = .ok (routes, msg)) :
    (if (parseTTPPoints (text.splitOn ("\n")) TYPE_OUTGOING_LOCATION).length >
        (parseTTPPoints (text.splitOn ("\n")) TYPE_INCOMING_LOCATION).length then
      pointsOfFirst routes =
        parseTTPPoints (text.splitOn ("\n")) TYPE_OUTGOING_LOCATION ∧
      msg = some ("Using TTP outgoing locations")
    else
      pointsOfFirst routes =
        parseTTPPoints (text.splitOn ("\n")) TYPE_INCOMING_LOCATION ∧
      msg = some ("Using TTP incoming locations")) := by
  obtain ⟨tt, hcalc, hroutes, hmsg⟩ := parseTTP_ok_shape env text routes msg hok
  have hincl : (parseTTPPoints (text.splitOn ("\n")) TYPE_INCOMING_LOCATION).length ≠ 0 := by
    simpa [List.length_eq_zero] using hinc
  have houtl : (parseTTPPoints (text.splitOn ("\n")) TYPE_OUTGOING_LOCATION).length ≠ 0 := by
    simpa [List.length_eq_zero] using hout
  rw [ttpSelectChannel, if_neg hincl, if_neg houtl] at hroutes hmsg
  by_cases hgt : (parseTTPPoints (text.splitOn ("\n")) TYPE_OUTGOING_LOCATION).length >
      (parseTTPPoints (text.splitOn ("\n")) TYPE_INCOMING_LOCATION).length
  · rw [if_pos hgt] at hroutes hmsg
    rw [if_pos hgt]
    subst hroutes
    exact ⟨rfl, hmsg⟩
  · rw [if_neg hgt] at hroutes hmsg
    rw [if_neg hgt]
    subst hroutes
    exact ⟨rfl, hmsg⟩

/-- A positioning log with one incoming record and two outgoing records. -/
def ttpTwoOutText : String :=
  "BEGIN:ApplicationVersion=TomTom Positioning 0.7\n1,245,x,1,x,2,x,x,x,x,x,3\n2,237,x,1,x,2,x,x,x,x,x,3\n3,237,x,1,x,2,x,x,x,x,x,3"

set_option maxRecDepth 131072 in
/-- Witness for `parseTTP_channel_priority`: on `ttpTwoOutText` the outgoing
channel has 2 points against 1 incoming point, `parseTTP` succeeds, and the
selection yields the outgoing channel with its naming message. -/
theorem parseTTP_channel_priority_witness :
    parseTTPPoints (ttpTwoOutText.splitOn ("\n")) TYPE_INCOMING_LOCATION ≠ [] ∧
    parseTTPPoints (ttpTwoOutText.splitOn ("\n")) TYPE_OUTGOING_LOCATION ≠ [] ∧
    (if (parseTTPPoints (ttpTwoOutText.splitOn ("\n")) TYPE_OUTGOING_LOCATION).length >
        (parseTTPPoints (ttpTwoOutText.splitOn ("\n")) TYPE_INCOMING_LOCATION).length then
      pointsOfFirst (extractRoutes env0 ttpTwoOutText).routes =
        parseTTPPoints (ttpTwoOutText.splitOn ("\n")) TYPE_OUTGOING_LOCATION ∧
      (extractRoutes env0 ttpTwoOutText).success = some ("Using TTP outgoing locations")
    else
      pointsOfFirst (extractRoutes env0 ttpTwoOutText).routes =
        parseTTPPoints (ttpTwoOutText.splitOn ("\n")) TYPE_INCOMING_LOCATION ∧
      (extractRoutes env0 ttpTwoOutText).success = some ("Using TTP incoming locations")) := by
  have hil : (parseTTPPoints (ttpTwoOutText.splitOn ("\n")) TYPE_INCOMING_LOCATION).length = 1 := by
    with_unfolding_all rfl
  have hol : (parseTTPPoints (ttpTwoOutText.splitOn ("\n")) TYPE_OUTGOING_LOCATION).length = 2 := by
    with_unfolding_all rfl
  have hine : parseTTPPoints (ttpTwoOutText.splitOn ("\n")) TYPE_INCOMING_LOCATION ≠ [] := by
    intro h; rw [h] at hil; simp at hil
  have houte : parseTTPPoints (ttpTwoOutText.splitOn ("\n")) TYPE_OUTGOING_LOCATION ≠ [] := by
    intro h; rw [h] at hol; simp at hol
  refine ⟨hine, houte, ?_⟩
  exact parseTTP_channel_priority env0 ttpTwoOutText
    (extractRoutes env0 ttpTwoOutText).routes
    (extractRoutes env0 ttpTwoOutText).success
    hine houte (by with_unfolding_all rfl)

/-! ## Claim C5 -/

/-- Every point emitted by the record loop carries a timestamp that was not
in the seen-set the loop started from. -/
theorem ttpGo_mem_ts (type : String) :
    ∀ (lines seen : List String) (p : NavigationPoint), p ∈ ttpGo type lines seen →
      ∃ ts, p.timestamp = some ts ∧ ts ∉ seen := by
  intro lines
  induction lines with
  | nil =>
    intro seen p hp
    simp [ttpGo] at hp
  | cons line rest ih =>
    intro seen p hp
    simp only [ttpGo] at hp
    split at hp
    · exact ih seen p hp
    · split at hp
      · exact ih seen p hp
      · split at hp
        · exact ih seen p hp
        · split at hp
          · obtain ⟨ts, hts, hn⟩ := ih _ p hp
            exact ⟨ts, hts, fun hm => hn (List.mem_cons_of_mem _ hm)⟩
          · rename_i hcomment hfresh htype hfields
            rcases List.mem_cons.mp hp with heq | htail
            · subst heq
              exact ⟨_, rfl, fun hm => hfresh (Or.inr hm)⟩
            · obtain ⟨ts, hts, hn⟩ := ih _ p htail
              exact ⟨ts, hts, fun hm => hn (List.mem_cons_of_mem _ hm)⟩

/-- The timestamps of the points emitted by the record loop are pairwise
distinct. -/
theorem ttpGo_ts_nodup (type : String) :
    ∀ (lines seen : List String),
      ((ttpGo type lines seen).map NavigationPoint.timestamp).Nodup := by
  intro lines
  induction lines with
  | nil =>
    intro seen
    simp [ttpGo]
  | cons line rest ih =>
    intro seen
    simp only [ttpGo]
    split
    · exact ih seen
    · split
      · exact ih seen
      · split
        · exact ih seen
        · split
          · exact ih _
          · rw [List.map_cons, List.nodup_cons]
            refine ⟨?_, ih _⟩
            intro hmem
            obtain ⟨q, hq, hqts⟩ := List.mem_map.mp hmem
            obtain ⟨ts, hts, hn⟩ := ttpGo_mem_ts type rest _ q hq
            rw [hts] at hqts
            rw [Option.some.inj hqts] at hn
            exact hn (List.mem_cons_self _ _)

/-- Claim C5 (amended): within one channel pass of the positioning-log
parser, (1) the emitted timestamps are pairwise distinct; (2) a record whose
reception timestamp parses to zero is discarded outright; (3) a fresh,
channel-matching record missing longitude, latitude or speed adds its
timestamp to *this channel pass's own* seen-set — preventing later records
of the same pass with that timestamp from contributing — while contributing
no point; (4) a record whose reception timestamp is already in the seen-set
contributes nothing and changes nothing; and (5) a fresh, channel-matching,
fully-populated record contributes *its own* point (`ttpRecordPoint`) and
marks its timestamp seen.  (4) and (5) together are first-occurrence-wins:
the first record of a timestamp emits its point and poisons the timestamp,
after which every later record of the pass sharing it is dropped by (4) —
with (3), also when the first occurrence was field-deficient.  The seen-set
is created afresh per channel pass, so it does not affect the other
channel. -/
theorem parseTTPPoints_record_rules :
    (∀ (lines : List String) (type : String),
      ((parseTTPPoints lines type).map NavigationPoint.timestamp).Nodup) ∧
    (∀ (type line : String) (rest seen : List String),
      jsParseFloat ((line.splitOn (",")).headD ("")) = some 0 →
      ttpGo type (line :: rest) seen = ttpGo type rest seen) ∧
    (∀ (type line : String) (rest seen : List String),
      line.startsWith ("#") = false →
      jsParseFloat ((line.splitOn (",")).headD ("")) ≠ some 0 →
      ((line.splitOn (",")).headD ("")) ∉ seen →
      (line.splitOn (","))[1]? = some type →
      (jsFalsyField (line.splitOn (","))[3]? || jsFalsyField (line.splitOn (","))[5]? ||
        jsFalsyField (line.splitOn (","))[11]?) = true →
      ttpGo type (line :: rest) seen =
        ttpGo type rest (((line.splitOn (",")).headD ("")) :: seen)) ∧
    (∀ (type line : String) (rest seen : List String),
      ((line.splitOn (",")).headD ("")) ∈ seen →
      ttpGo type (line :: rest) seen = ttpGo type rest seen) ∧
    (∀ (type line : String) (rest seen : List String),
      line.startsWith ("#") = false →
      jsParseFloat ((line.splitOn (",")).headD ("")) ≠ some 0 →
      ((line.splitOn (",")).headD ("")) ∉ seen →
      (line.splitOn (","))[1]? = some type →
      (jsFalsyField (line.splitOn (","))[3]? || jsFalsyField (line.splitOn (","))[5]? ||
        jsFalsyField (line.splitOn (","))[11]?) = false →
      ttpGo type (line :: rest) seen =
        ttpRecordPoint line ::
          ttpGo type rest (((line.splitOn (",")).headD ("")) :: seen)) := by
  refine ⟨fun lines type => ttpGo_ts_nodup type lines [], ?_, ?_, ?_, ?_⟩
  · intro type line rest seen hzero
    simp only [ttpGo]
    by_cases h1 : line.startsWith ("#")
    · rw [if_pos h1]
    · rw [if_neg h1, if_pos (Or.inl hzero)]
  · intro type line rest seen h1 h2 h3 h4 h5
    simp only [ttpGo]
    rw [if_neg (by simp [h1]), if_neg (not_or.mpr ⟨h2, h3⟩),
      if_neg (fun hne => hne h4), if_pos h5]
  · intro type line rest seen hseen
    simp only [ttpGo]
    by_cases h1 : line.startsWith ("#")
    · rw [if_pos h1]
    · rw [if_neg h1, if_pos (Or.inr hseen)]
  · intro type line rest seen h1 h2 h3 h4 h5
    simp only [ttpGo]
    rw [if_neg (by simp [h1]), if_neg (not_or.mpr ⟨h2, h3⟩),
      if_neg (fun hne => hne h4), if_neg (by simp [h5])]

/-- An incoming-channel record at timestamp 7 with its speed field empty. -/
def missSpeedLine : String := "7,245,x,1,x,2,x,x,x,x,x,"

/-- An outgoing-channel record at the same timestamp 7, fully populated. -/
def outFullLine : String := "7,237,x,1,x,2,x,x,x,x,x,3"

set_option maxRecDepth 65536 in
/-- Counterexample to claim C5 as stated: the seen-set is per-channel-pass,
*not* shared across channels.  The incoming pass sees the field-deficient
record at timestamp 7, marks 7 seen and emits nothing (so the later incoming
check of the outgoing record is suppressed and the incoming channel is
empty) — yet the outgoing pass, started with a fresh seen-set, happily
emits a point for that very timestamp: marking the timestamp does not
"prevent the other channel from reprocessing it". -/
theorem parseTTPPoints_seen_not_cross_channel :
    parseTTPPoints [missSpeedLine, outFullLine] TYPE_INCOMING_LOCATION = [] ∧
    (parseTTPPoints [missSpeedLine, outFullLine] TYPE_OUTGOING_LOCATION).map
      NavigationPoint.timestamp = [some ("7")] := by
  refine ⟨by with_unfolding_all rfl, by with_unfolding_all rfl⟩

/-- A record whose reception timestamp parses to zero. -/
def zeroTsLine : String := "0,245,x,1,x,2,x,x,x,x,x,3"

set_option maxRecDepth 65536 in
/-- Witness for `parseTTPPoints_record_rules` at concrete records: the
zero-timestamp record is discarded; the field-deficient record marks its
timestamp seen without a point; a record whose timestamp is already seen is
dropped; and a fresh fully-populated record emits its own point and marks
its timestamp seen. -/
theorem parseTTPPoints_record_rules_witness :
    (jsParseFloat ((zeroTsLine.splitOn (",")).headD ("")) = some 0 ∧
      ttpGo ("245") [zeroTsLine] [] = ttpGo ("245") [] []) ∧
    (missSpeedLine.startsWith ("#") = false ∧
      jsParseFloat ((missSpeedLine.splitOn (",")).headD ("")) ≠ some 0 ∧
      ((missSpeedLine.splitOn (",")).headD ("")) ∉ ([] : List String) ∧
      (missSpeedLine.splitOn (","))[1]? = some ("245") ∧
      (jsFalsyField (missSpeedLine.splitOn (","))[3]? ||
        jsFalsyField (missSpeedLine.splitOn (","))[5]? ||
        jsFalsyField (missSpeedLine.splitOn (","))[11]?) = true ∧
      ttpGo ("245") [missSpeedLine] [] =
        ttpGo ("245") [] (((missSpeedLine.splitOn (",")).headD ("")) :: [])) ∧
    (((outFullLine.splitOn (",")).headD ("")) ∈ [("7")] ∧
      ttpGo ("237") [outFullLine] [("7")] = ttpGo ("237") [] [("7")]) ∧
    (outFullLine.startsWith ("#") = false ∧
      jsParseFloat ((outFullLine.splitOn (",")).headD ("")) ≠ some 0 ∧
      ((outFullLine.splitOn (",")).headD ("")) ∉ ([] : List String) ∧
      (outFullLine.splitOn (","))[1]? = some ("237") ∧
      (jsFalsyField (outFullLine.splitOn (","))[3]? ||
        jsFalsyField (outFullLine.splitOn (","))[5]? ||
        jsFalsyField (outFullLine.splitOn (","))[11]?) = false ∧
      ttpGo ("237") [outFullLine] [] =
        ttpRecordPoint outFullLine ::
          ttpGo ("237") [] (((outFullLine.splitOn (",")).headD ("")) :: [])) := by
  have h7 : jsParseFloat ((missSpeedLine.splitOn (",")).headD ("")) = some (7 : ℚ) := by
    with_unfolding_all rfl
  have hne : jsParseFloat ((missSpeedLine.splitOn (",")).headD ("")) ≠ some 0 := by
    rw [h7]
    intro hc
    exact absurd (Option.some.inj hc) (by norm_num)
  have h7o : jsParseFloat ((outFullLine.splitOn (",")).headD ("")) = some (7 : ℚ) := by
    with_unfolding_all rfl
  have hneo : jsParseFloat ((outFullLine.splitOn (",")).headD ("")) ≠ some 0 := by
    rw [h7o]
    intro hc
    exact absurd (Option.some.inj hc) (by norm_num)
  have hmem : ((outFullLine.splitOn (",")).headD ("")) ∈ [("7")] := by
    have hh : ((outFullLine.splitOn (",")).headD ("")) = ("7") := by
      with_unfolding_all rfl
    rw [hh]
    simp
  refine ⟨⟨by with_unfolding_all rfl, ?_⟩,
    ⟨by with_unfolding_all rfl, hne, by simp, by with_unfolding_all rfl,
      by with_unfolding_all rfl, ?_⟩,
    ⟨hmem, ?_⟩,
    by with_unfolding_all rfl, hneo, by simp, by with_unfolding_all rfl,
    by with_unfolding_all rfl, ?_⟩
  · exact parseTTPPoints_record_rules.2.1 ("245") zeroTsLine [] []
      (by with_unfolding_all rfl)
  · exact parseTTPPoints_record_rules.2.2.1 ("245") missSpeedLine [] []
      (by with_unfolding_all rfl) hne (by simp)
      (by with_unfolding_all rfl) (by with_unfolding_all rfl)
  · exact parseTTPPoints_record_rules.2.2.2.1 ("237") outFullLine [] [("7")] hmem
  · exact parseTTPPoints_record_rules.2.2.2.2 ("237") outFullLine [] []
      (by with_unfolding_all rfl) hneo (by simp)
      (by with_unfolding_all rfl) (by with_unfolding_all rfl)

/-! ## Claim C8 -/

/-- A list containing two distinct members has at least two elements. -/
theorem two_ne_mem_le_length {α : Type} {l : List α} {a b : α}
    (ha : a ∈ l) (hb : b ∈ l) (hne : a ≠ b) : 2 ≤ l.length := by
  cases l with
  | nil => cases ha
  | cons x t =>
    cases t with
    | nil =>
      simp only [List.mem_singleton] at ha hb
      exact absurd (ha.trans hb.symm) hne
    | cons y u =>
      simp [List.length]

/-- A defined value of the two-candidate timestamp fallback comes from some
point of the list whose timestamp parses to that value. -/
theorem jsTsAt_orElse_some {points : List NavigationPoint} {i j : ℕ} {v : ℚ}
    (h : (jsTsAt points i <|> jsTsAt points j) = some v) :
    ∃ p, p ∈ points ∧ jsTsVal p = some v := by
  cases h0 : jsTsAt points i with
  | some w =>
    rw [h0] at h
    have hw : w = v := by simpa using h
    subst hw
    unfold jsTsAt at h0
    cases hp : points[i]? with
    | none => rw [hp] at h0; cases h0
    | some p => rw [hp] at h0; exact ⟨p, List.getElem?_mem hp, h0⟩
  | none =>
    rw [h0] at h
    have h1 : jsTsAt points j = some v := by simpa using h
    unfold jsTsAt at h1
    cases hp : points[j]? with
    | none => rw [hp] at h1; cases h1
    | some p => rw [hp] at h1; exact ⟨p, List.getElem?_mem hp, h1⟩

/-- Claim C8 (amended): for the extractors that derive their own summaries
(positioning log and delimited telemetry) the summary's
`travelTimeInSeconds` is exactly the value of the embedded
`calculateTravelTimeInSeconds` on the route's points — the last effective
timestamp minus the first, rounded to two decimals, which *may be negative*
when timestamps decrease; it equals 0 whenever the route has fewer than 2
points, and equally whenever fewer than 2 of its points carry parseable
timestamps. -/
theorem travel_time_properties :
    (∀ (points : List NavigationPoint), points.length < 2 →
      calculateTravelTimeInSeconds points = .ok 0) ∧
    (∀ (points : List NavigationPoint) (t : ℚ),
      calculateTravelTimeInSeconds points = .ok t →
      (points.filter (fun p => (jsTsVal p).isSome)).length < 2 → t = 0) ∧
    (∀ (env : JsEnv) (text : String) (route : Route) (msg : Option String),
      parseTTP env text = .ok ([RouteData.built route], msg) →
      calculateTravelTimeInSeconds (firstLegPoints route) =
        .ok route.summary.travelTimeInSeconds) ∧
    (∀ (env : JsEnv) (text : String) (route : Route) (msg : Option String),
      parseCSV env text = .ok ([RouteData.built route], msg) →
      calculateTravelTimeInSeconds (firstLegPoints route) =
        .ok route.summary.travelTimeInSeconds) := by
  refine ⟨?_, ?_, ?_, ?_⟩
  · intro points h
    unfold calculateTravelTimeInSeconds
    rw [if_pos h]
  · intro points t hok hfew
    unfold calculateTravelTimeInSeconds at hok
    by_cases hlen : points.length < 2
    · rw [if_pos hlen] at hok
      exact (Except.ok.inj hok).symm
    · rw [if_neg hlen] at hok
      cases hs : jsTsAt points 0 <|> jsTsAt points 1 with
      | none => rw [hs] at hok; cases hok
      | some s =>
        rw [hs] at hok
        cases he : jsTsAt points (points.length - 1) <|>
            jsTsAt points (points.length - 2) with
        | none => rw [he] at hok; cases hok
        | some e =>
          rw [he] at hok
          have ht : t = toFixed2 (e - s) := (Except.ok.inj hok).symm
          obtain ⟨ps, hpsm, hpsv⟩ := jsTsAt_orElse_some hs
          obtain ⟨pe, hpem, hpev⟩ := jsTsAt_orElse_some he
          by_cases hse : s = e
          · subst hse
            rw [ht, sub_self]
            with_unfolding_all rfl
          · exfalso
            have hne : ps ≠ pe := by
              intro hh
              rw [hh, hpev] at hpsv
              exact hse (Option.some.inj hpsv).symm
            have hm1 : ps ∈ points.filter (fun p => (jsTsVal p).isSome) :=
              List.mem_filter.mpr ⟨hpsm, by rw [hpsv]; rfl⟩
            have hm2 : pe ∈ points.filter (fun p => (jsTsVal p).isSome) :=
              List.mem_filter.mpr ⟨hpem, by rw [hpev]; rfl⟩
            have := two_ne_mem_le_length hm1 hm2 hne
            omega
  · intro env text route msg hok
    obtain ⟨tt, hcalc, hr, hmsg⟩ := parseTTP_ok_shape env text _ msg hok
    simp only [List.cons.injEq, RouteData.built.injEq, and_true] at hr
    subst hr
    exact hcalc
  · intro env text route msg hok
    unfold parseCSV at hok
    split at hok
    · cases hok
    · rename_i points hpoints
      split at hok
      · simp at hok
      · split at hok
        · cases hok
        · rename_i tt hcalc
          simp only [Except.ok.injEq, Prod.mk.injEq, List.cons.injEq,
            RouteData.built.injEq, and_true] at hok
          rw [← hok.1]
          exact hcalc

/-- A positioning log whose two incoming records carry *decreasing*
reception timestamps (5, then 2). -/
def ttpNegText : String :=
  "BEGIN:ApplicationVersion=TomTom Positioning 0.7\n5,245,x,1,x,2,x,x,x,x,x,1\n2,245,x,1,x,2,x,x,x,x,x,1"

set_option maxRecDepth 65536 in
/-- Counterexample to claim C8 as stated: on `ttpNegText` the positioning-log
extractor succeeds and the produced route's summary has
`travelTimeInSeconds = -3` — a *negative* travel time (2 − 5), refuting the
claimed non-negativity. -/
theorem parseTTP_negative_travel_time :
    summaryTravelOfOk (parseTTP env0 ttpNegText) = some (-3) ∧ ((-3 : ℚ) < 0) := by
  refine ⟨by with_unfolding_all rfl, by norm_num⟩

/-- The two points parsed from `ttpNegText` (identical coordinates, so the
abstract haversine value 0 of `env0` agrees with the true one). -/
def ttpNegPoints : List NavigationPoint :=
  [{ timestamp := some ("5"), latitude := some 2, longitude := some 1, speed := some 1 },
   { timestamp := some ("2"), latitude := some 2, longitude := some 1, speed := some 1 }]

/-- A point whose timestamp does not parse. -/
def oneTsPointA : NavigationPoint :=
  { timestamp := some ("x"), latitude := some 1, longitude := some 1, speed := none }

/-- A point whose timestamp parses to 5. -/
def oneTsPointB : NavigationPoint :=
  { timestamp := some ("5"), latitude := some 1, longitude := some 1, speed := none }

set_option maxRecDepth 65536 in
/-- Witness for `travel_time_properties` at concrete inputs: the
fewer-than-two-points clause at `[]`, the fewer-than-two-*timestamped*
clause at a pair with one unparseable timestamp, and the summary-linkage
clause at the concrete `ttpNegText` route. -/
theorem travel_time_properties_witness :
    (([] : List NavigationPoint).length < 2 ∧
      calculateTravelTimeInSeconds [] = .ok 0) ∧
    (toFixed2 (0 : ℚ) = 0) ∧
    (parseTTP env0 ttpNegText =
        .ok ([RouteData.built (singleLegRoute env0 ttpNegPoints (-3))],
          some ("No outgoing locations found in TTP, using incoming locations")) ∧
      calculateTravelTimeInSeconds
          (firstLegPoints (singleLegRoute env0 ttpNegPoints (-3))) =
        .ok (singleLegRoute env0 ttpNegPoints (-3)).summary.travelTimeInSeconds) := by
  have hb : calculateTravelTimeInSeconds [oneTsPointA, oneTsPointB] =
      .ok (toFixed2 (0 : ℚ)) := by
    with_unfolding_all rfl
  have hfew1 : (([oneTsPointA, oneTsPointB] : List NavigationPoint).filter
      (fun p => (jsTsVal p).isSome)).length = 1 := by
    with_unfolding_all rfl
  have hfew : (([oneTsPointA, oneTsPointB] : List NavigationPoint).filter
      (fun p => (jsTsVal p).isSome)).length < 2 := by
    omega
  refine ⟨⟨by simp, travel_time_properties.1 [] (by simp)⟩, ?_, ?_, ?_⟩
  · exact travel_time_properties.2.1 _ (toFixed2 (0 : ℚ)) hb hfew
  · with_unfolding_all rfl
  · exact travel_time_properties.2.2.1 env0 ttpNegText
      (singleLegRoute env0 ttpNegPoints (-3))
      (some ("No outgoing locations found in TTP, using incoming locations"))
      (by with_unfolding_all rfl)

end RoutePlotter
